import Mathlib

/-!
# Verification of the homomorphic-hash micropayment channel

Shallow embedding of the repository's Python core
(`backend/src/crypto/pedersen.py`, `backend/src/protocol/channel.py`,
`backend/src/protocol/ledger.py`) in Lean 4, together with proofs and
refutations of the specification claims.

Python arbitrary-precision integers are modelled as `Nat` (for values that
are non-negative throughout, such as commitment values, scalars and sequence
numbers) and `Int` (for values the code treats as signed, such as balances,
deposits and transfer amounts).  Python's three-argument `pow b e m` is
modelled as `b ^ e % m`.  Python dictionaries whose key set is fixed to
`{"alice", "bob"}` by construction are modelled as pairs of fields, and the
in-place mutation of channel and ledger state is modelled by explicit state
passing: every mutating operation returns the new object together with an
optional error, and raising an exception mid-operation returns the partially
mutated object exactly as the source leaves it.
-/

namespace Micropay

/-! ## Modular exponentiation by squaring over a base-16 digit list

`2 ^ e % m` for a 767-bit exponent cannot be evaluated by computing `2 ^ e`
first.  `powDigits` evaluates it with O(log e) modular multiplications, which
the kernel executes on GMP naturals; `powDigits_eq` relates it to `b ^ e % m`.
-/

/-- One square-and-multiply step for a base-16 digit. -/
def digitStep (b m acc d : Nat) : Nat :=
  let a2 := acc * acc % m
  let a4 := a2 * a2 % m
  let a8 := a4 * a4 % m
  let a16 := a8 * a8 % m
  a16 * (b ^ d % m) % m

/-- Square-and-multiply over a most-significant-first base-16 digit list. -/
def powDigitsAux (b m : Nat) : List Nat → Nat → Nat
  | [], acc => acc
  | d :: rest, acc => powDigitsAux b m rest (digitStep b m acc d)

/-- The value denoted by a most-significant-first base-16 digit list,
starting from high-order part `x`. -/
def digitsVal : List Nat → Nat → Nat
  | [], x => x
  | d :: rest, x => digitsVal rest (16 * x + d)

/-- `b ^ e % m` computed from the digit list of `e`. -/
def powDigits (b m : Nat) (digits : List Nat) : Nat :=
  powDigitsAux b m digits (1 % m)

/-- `_pow(base, exponent, modulus)`: the source's wrapper around Python's
three-argument `pow`. -/
def powMod (b e m : Nat) : Nat := b ^ e % m

/-! ## The hard-coded group constant

`pedersen._P_HEX` with the source comment "RFC 3526 2048-bit MODP Group
(Group 14)".  The constant as written is a 768-bit number. -/

/-- The modulus hard-coded in `pedersen._P_HEX`. -/
def pHex : Nat :=
  0xFFFFFFFFFFFFFFFFC90FDAA22168C234C4C6628B80DC1CD129024E088A67CC74020BBEA63B139B22514A08798E3404DDEF9519B3CD3A431B302B0A6DF25F14374FE1356D6D51C245E485B576625E7EC6F44C42E9A63A3620FFFFFFFFFFFFFFFF

/-- Subgroup order `q = (p - 1) // 2` as computed in `default_parameters`. -/
def qVal : Nat := (pHex - 1) / 2

/-- The base-16 digits of `qVal`, most significant first. -/
def qDigits : List Nat :=
  [7, 15, 15, 15, 15, 15, 15, 15, 15, 15, 15, 15, 15, 15, 15, 15, 14, 4,
   8, 7, 14, 13, 5, 1, 1, 0, 11, 4, 6, 1, 1, 10, 6, 2, 6, 3, 3, 1, 4, 5,
   12, 0, 6, 14, 0, 14, 6, 8, 9, 4, 8, 1, 2, 7, 0, 4, 4, 5, 3, 3, 14, 6,
   3, 10, 0, 1, 0, 5, 13, 15, 5, 3, 1, 13, 8, 9, 12, 13, 9, 1, 2, 8, 10,
   5, 0, 4, 3, 12, 12, 7, 1, 10, 0, 2, 6, 14, 15, 7, 12, 10, 8, 12, 13, 9,
   14, 6, 9, 13, 2, 1, 8, 13, 9, 8, 1, 5, 8, 5, 3, 6, 15, 9, 2, 15, 8, 10,
   1, 11, 10, 7, 15, 0, 9, 10, 11, 6, 11, 6, 10, 8, 14, 1, 2, 2, 15, 2, 4,
   2, 13, 10, 11, 11, 3, 1, 2, 15, 3, 15, 6, 3, 7, 10, 2, 6, 2, 1, 7, 4,
   13, 3, 1, 13, 1, 11, 1, 0, 7, 15, 15, 15, 15, 15, 15, 15, 15, 15, 15,
   15, 15, 15, 15, 15]

/-! ## Byte strings, hexadecimal serialization and hashing

Python `bytes` values are modelled as `List Nat` of byte values; `str` values
are modelled as `String` and enter hashes through their character codes. -/

/-- UTF-8 bytes of a Python string (ASCII range in every use below). -/
def encodeStr (s : String) : List Nat := s.data.map Char.toNat

/-- `int.to_bytes(length, "big")`: big-endian, fixed length. -/
def natToBytesBE : Nat → Nat → List Nat
  | 0, _ => []
  | len + 1, v => natToBytesBE len (v / 256) ++ [v % 256]

/-- `int.from_bytes(_, "big")`. -/
def bytesToNat (l : List Nat) : Nat := l.foldl (fun a b => 256 * a + b) 0

/-- `int.bit_length()`. -/
def bitLen (n : Nat) : Nat := if n = 0 then 0 else Nat.log2 n + 1

/-- Hexadecimal digits (values, most significant first) of a natural;
auxiliary recursion on a fuel bound. -/
def natToHexAux : Nat → Nat → List Nat
  | 0, _ => []
  | fuel + 1, n => if n = 0 then [] else natToHexAux fuel (n / 16) ++ [n % 16]

/-- Digit values of `format(n, "x")`, most significant first. -/
def natToHex (n : Nat) : List Nat := if n = 0 then [0] else natToHexAux n n

/-- Value of a most-significant-first hexadecimal digit list, `int(_, 16)`. -/
def hexToNat (ds : List Nat) : Nat := ds.foldl (fun a d => 16 * a + d) 0

/-- ASCII code of a lowercase hexadecimal digit, as produced by
`format(_, "x")` and `bytes.hex()`. -/
def hexDigitChar (d : Nat) : Nat := if d < 10 then 48 + d else 87 + d

/-- Digit value of a lowercase hexadecimal character code. -/
def hexCharVal (c : Nat) : Nat := if c < 58 then c - 48 else c - 87

/-- Character codes of the hex string for a digit list. -/
def hexDigitChars (ds : List Nat) : List Nat := ds.map hexDigitChar

/-- `bytes.hex()`: two lowercase hex characters per byte. -/
def bytesToHexChars : List Nat → List Nat
  | [] => []
  | b :: rest => hexDigitChar (b / 16) :: hexDigitChar (b % 16) :: bytesToHexChars rest

/-- `bytes.fromhex(_)`: rebuild bytes from pairs of hex characters. -/
def hexCharsToBytes : List Nat → List Nat
  | c1 :: c2 :: rest => (16 * hexCharVal c1 + hexCharVal c2) :: hexCharsToBytes rest
  | _ => []

/-- Modelled from the spec: `hashlib.sha256` (a Python standard-library
primitive external to this repository; the spec only requires "a fixed
domain-separation" hash, treating the digest function as an opaque
deterministic 32-byte hash).  Modelled as a fixed deterministic mixing fold
producing a 256-bit value; every claim below depends only on the hash being
a deterministic function of its input bytes. -/
def shaMix (l : List Nat) : Nat :=
  l.foldl (fun a b => (a * 1099511628211 + b + 131) % 2 ^ 256) 14695981039346656037

/-- `sha256(l).digest()`: 32 bytes, big-endian, under the modelled hash. -/
def shaBytes (l : List Nat) : List Nat := natToBytesBE 32 (shaMix l)

/-! ## `crypto/pedersen.py` -/

/-- `CommitmentParameters`: public parameters of the commitment scheme. -/
structure CommitmentParameters where
  p : Nat
  q : Nat
  g : Nat
  h : Nat
deriving DecidableEq

/-- `CommitmentProof`: Schnorr-style proof of knowledge of an opening. -/
structure CommitmentProof where
  t : Nat
  response_m : Nat
  response_r : Nat
deriving DecidableEq

/-- `_hash_to_scalar(seed, q)`: first non-zero `sha256(seed ‖ attempt) % q`
over attempts `0, 1, 2, …`.  The source loops unboundedly; the loop is
modelled with a fuel bound of `q + 1` attempts (the value `1` on fuel
exhaustion is never reached in any use in this development). -/
def hashToScalarAux (seed : List Nat) (q : Nat) : Nat → Nat → Nat
  | 0, _ => 1
  | fuel + 1, attempt =>
    let s := bytesToNat (shaBytes (seed ++ natToBytesBE 4 attempt)) % q
    if s = 0 then hashToScalarAux seed q fuel (attempt + 1) else s

def hashToScalar (seed : List Nat) (q : Nat) : Nat :=
  hashToScalarAux seed q (q + 1) 0

/-- `default_parameters()`: `p` from `_P_HEX`, `q = (p-1)//2`, `g = 2` and
`h = pow(g, _hash_to_scalar(b"pedersen-h-generator", q), p)`. -/
def default_parameters : CommitmentParameters :=
  { p := pHex
    q := qVal
    g := 2
    h := powMod 2 (hashToScalar (encodeStr ("pedersen-h-generator")) qVal) pHex }

/-- `commit(params, message, randomness)`: the message is reduced mod `q`;
the value is `pow(g, m, p) * pow(h, r, p) % p`.  The caller-supplied or
sampled randomness is passed explicitly (`random_scalar` is an external
randomness source; claims quantify over its output). -/
def commit (params : CommitmentParameters) (message : Int) (randomness : Nat) :
    Nat × Nat :=
  let m := (message % (params.q : Int)).toNat
  (powMod params.g m params.p * powMod params.h randomness params.p % params.p,
   randomness)

/-- `verify(params, commitment, message, opening)`. -/
def verify (params : CommitmentParameters) (commitment : Nat) (message : Int)
    (opening : Nat) : Bool :=
  let lhs := commitment % params.p
  let m := (message % (params.q : Int)).toNat
  let rhs := powMod params.g m params.p * powMod params.h opening params.p
    % params.p
  lhs == rhs

/-- `add_commitments(params, commitments)`: product mod `p`, accumulator 1. -/
def add_commitments (params : CommitmentParameters) (commitments : List Nat) : Nat :=
  commitments.foldl (fun acc c => acc * c % params.p) 1

/-- `add_messages(params, messages)`: running sum reduced mod `q`. -/
def add_messages (params : CommitmentParameters) (messages : List Int) : Int :=
  messages.foldl (fun total m => (total + m) % (params.q : Int)) 0

/-- `add_openings(params, openings)`: running sum of randomness mod `q`. -/
def add_openings (params : CommitmentParameters) (openings : List Nat) : Nat :=
  openings.foldl (fun total o => (total + o) % params.q) 0

/-- `_commitment_byte_length(params)`. -/
def commitment_byte_length (params : CommitmentParameters) : Nat :=
  (bitLen params.p + 7) / 8

/-- `_PROOF_DOMAIN_SEPARATOR`. -/
def PROOF_DS : List Nat := encodeStr ("pedersen/opening-proof/v1")

/-- `_compute_challenge(params, commitment, t_value, context)`: hash of
domain separator, context, commitment bytes and t bytes, reduced mod `q`,
with the zero case forced to 1. -/
def compute_challenge (params : CommitmentParameters) (commitment t_value : Nat)
    (context : List Nat) : Nat :=
  let bl := commitment_byte_length params
  let digest := shaBytes (PROOF_DS ++ context ++
    natToBytesBE bl (commitment % params.p) ++ natToBytesBE bl (t_value % params.p))
  let challenge := bytesToNat digest % params.q
  if challenge = 0 then 1 else challenge

/-- `prove_opening(params, message, opening, commitment, context)` with the
two sampled nonces `w_m`, `w_r` passed explicitly. -/
def prove_opening (params : CommitmentParameters) (message : Int)
    (openingR : Nat) (commitment : Nat) (context : List Nat)
    (w_m w_r : Nat) : CommitmentProof :=
  let t_value := powMod params.g w_m params.p * powMod params.h w_r params.p
    % params.p
  let challenge := compute_challenge params commitment t_value context
  let m := (message % (params.q : Int)).toNat
  { t := t_value
    response_m := (w_m + challenge * m) % params.q
    response_r := (w_r + challenge * openingR) % params.q }

/-- `verify_opening_proof(params, commitment, proof, context)`. -/
def verify_opening_proof (params : CommitmentParameters) (commitment : Nat)
    (proof : CommitmentProof) (context : List Nat) : Bool :=
  let challenge := compute_challenge params commitment proof.t context
  let left := powMod params.g proof.response_m params.p *
    powMod params.h proof.response_r params.p % params.p
  let right := proof.t *
    powMod (commitment % params.p) challenge params.p % params.p
  left == right

/-- `serialize_commitment`: lowercase hex character codes of the value. -/
def serialize_commitment (c : Nat) : List Nat := hexDigitChars (natToHex c)

/-- `deserialize_commitment`. -/
def deserialize_commitment (ds : List Nat) : Nat := hexToNat (ds.map hexCharVal)

/-- `serialize_opening`. -/
def serialize_opening (r : Nat) : List Nat := hexDigitChars (natToHex r)

/-- `deserialize_opening`. -/
def deserialize_opening (ds : List Nat) : Nat := hexToNat (ds.map hexCharVal)

/-! ## `crypto/signing.py`

Modelled from the spec: the signature capability is an external collaborator
("EdDSA-class sign/verify over arbitrary byte messages, keyed per
participant"); the source file only wraps PyNaCl's Ed25519, which is not part
of this repository.  It is modelled as a perfect deterministic signature
scheme: keys are opaque naturals, the verify key is derived from the signing
key, a signature is a byte string determined by the verify key and the
message, and verification accepts exactly that byte string.  The claims below
rely only on determinism and on `verify (vkOf sk) m (sign sk m) = true`. -/

/-- Verify-key derivation from an opaque signing key (`SigningKey.verify_key`). -/
def vkOf (sk : Nat) : Nat := sk

/-- The signature bytes for a verify key and message. -/
def sig_bytes (vk : Nat) (msg : List Nat) : List Nat :=
  natToBytesBE 32 (vk % 2 ^ 256) ++ msg

/-- `SigningKey.sign(message)`. -/
def sign_message (sk : Nat) (msg : List Nat) : List Nat := sig_bytes (vkOf sk) msg

/-- `VerifyKey.verify(message, signature)` (returns a `bool`). -/
def verify_signature (vk : Nat) (msg sig : List Nat) : Bool :=
  sig == sig_bytes vk msg

/-! ## `protocol/channel.py`

Participant identifiers are the strings `"alice"` and `"bob"`; the
`balances`/`commitments`/`openings`/`proofs` dictionaries (whose key set is
exactly those two strings for every channel the source can build) are
modelled as per-participant fields, and the `signatures` dictionary (0 to 2
entries) as two `Option` fields.  Errors raised by the Python code are
returned as values next to the (possibly partially mutated) object. -/

/-- The members of the `ChannelError` hierarchy that channel operations
raise: `InvalidParticipantError`, `InvalidAmountError`,
`InsufficientBalanceError`, and the bare internal `ChannelError` raised when
a freshly produced proof fails its immediate self-verification. -/
inductive ChannelError where
  | invalidParticipant
  | invalidAmount
  | insufficientBalance
  | internalProof
deriving DecidableEq

/-- The scalars drawn from `random_scalar` during one `open`/`_set_balances`
call: one commitment randomness and two proof nonces per participant.
Claims quantify over these, modelling the external randomness source. -/
structure TxRand where
  rA : Nat
  wmA : Nat
  wrA : Nat
  rB : Nat
  wmB : Nat
  wrB : Nat
deriving DecidableEq

/-- `ChannelState`. -/
structure ChannelState where
  sequence : Nat
  balA : Int
  balB : Int
  comA : Nat
  comB : Nat
  opA : Nat
  opB : Nat
  prA : CommitmentProof
  prB : CommitmentProof
  sigA : Option (List Nat)
  sigB : Option (List Nat)
deriving DecidableEq

/-- `Channel`: participants are fixed to alice and bob, holding one signing
key each. -/
structure Channel where
  channel_id : String
  params : CommitmentParameters
  skA : Nat
  skB : Nat
  state : ChannelState
  history : List ChannelState
deriving DecidableEq

/-- `proof_context(channel_id, sequence, participant_id)`:
`f"{channel_id}|{sequence}|{participant_id}|opening-proof"` UTF-8 encoded. -/
def natToDecAux : Nat → Nat → List Nat
  | 0, _ => []
  | fuel + 1, n => if n = 0 then [] else natToDecAux fuel (n / 10) ++ [48 + n % 10]

/-- ASCII character codes of `str(n)`. -/
def natToDec (n : Nat) : List Nat := if n = 0 then [48] else natToDecAux n n

def proof_context (channel_id : String) (sequence : Nat) (pid : String) :
    List Nat :=
  encodeStr channel_id ++ [124] ++ natToDec sequence ++ [124] ++ encodeStr pid
    ++ [124] ++ encodeStr ("opening-proof")

/-- `compute_state_digest(channel_id, sequence, commitments)`: hash of the
pieces `channel_id`, `str(sequence)` and the serialized commitments in
sorted participant order (alice before bob), joined by `"|"`. -/
def compute_state_digest (channel_id : String) (sequence : Nat)
    (comA comB : Nat) : List Nat :=
  shaBytes (encodeStr channel_id ++ [124] ++ natToDec sequence ++ [124]
    ++ serialize_commitment comA ++ [124] ++ serialize_commitment comB)

/-- Balance lookup `state.balances[pid]` for a valid participant. -/
def balOf (st : ChannelState) (pid : String) : Int :=
  if pid = "alice" then st.balA else st.balB

/-- `Channel._set_balances(balances)`: updates both balances, then per
participant (alice first, matching dict order) recommits, reproves under the
current sequence's context and self-checks the proof; on a failed self-check
the partially mutated state is left exactly as the source leaves it and the
internal `ChannelError` is raised.  On success the proofs dict is replaced
wholesale and all signatures are cleared. -/
def set_balances (ch : Channel) (bA bB : Int) (rnd : TxRand) :
    Channel × Option ChannelError :=
  let st0 := { ch.state with balA := bA, balB := bB }
  let cA := (commit ch.params bA rnd.rA).1
  let ctxA := proof_context ch.channel_id st0.sequence "alice"
  let prfA := prove_opening ch.params bA rnd.rA cA ctxA rnd.wmA rnd.wrA
  let st1 := { st0 with comA := cA, opA := rnd.rA }
  if verify_opening_proof ch.params cA prfA ctxA = false then
    ({ ch with state := st1 }, some ChannelError.internalProof)
  else
    let cB := (commit ch.params bB rnd.rB).1
    let ctxB := proof_context ch.channel_id st0.sequence "bob"
    let prfB := prove_opening ch.params bB rnd.rB cB ctxB rnd.wmB rnd.wrB
    let st2 := { st1 with comB := cB, opB := rnd.rB }
    if verify_opening_proof ch.params cB prfB ctxB = false then
      ({ ch with state := st2 }, some ChannelError.internalProof)
    else
      ({ ch with state :=
          { st2 with prA := prfA, prB := prfB, sigA := none, sigB := none } },
        none)

/-- `Channel.apply_payment(payer, amount)`: validation, transfer, sequence
increment, recommit/reprove via `_set_balances`, history append. -/
def apply_payment (ch : Channel) (payer : String) (amount : Int)
    (rnd : TxRand) : Channel × Option ChannelError :=
  if ¬ (payer = "alice" ∨ payer = "bob") then
    (ch, some ChannelError.invalidParticipant)
  else if amount ≤ 0 then (ch, some ChannelError.invalidAmount)
  else if balOf ch.state payer < amount then
    (ch, some ChannelError.insufficientBalance)
  else
    let bA := if payer = "alice" then ch.state.balA - amount
      else ch.state.balA + amount
    let bB := if payer = "alice" then ch.state.balB + amount
      else ch.state.balB - amount
    let ch1 := { ch with state := { ch.state with
      sequence := ch.state.sequence + 1 } }
    match set_balances ch1 bA bB rnd with
    | (ch2, some e) => (ch2, some e)
    | (ch2, none) => ({ ch2 with history := ch2.history ++ [ch2.state] }, none)

/-- `Channel.open(deposit_alice, deposit_bob, params, channel_id,
signing_keys)`: deposit validation, then per participant commit, prove under
context `(channel_id, 0, pid)` and self-check; history is initialized with a
snapshot of the sequence-0 state.  The generated or supplied channel id,
signing keys and random scalars are passed explicitly. -/
def openChannel (dA dB : Int) (params : CommitmentParameters) (cid : String)
    (skA skB : Nat) (rnd : TxRand) : Except ChannelError Channel :=
  if dA < 0 ∨ dB < 0 then Except.error ChannelError.invalidAmount
  else
    let cA := (commit params dA rnd.rA).1
    let ctxA := proof_context cid 0 "alice"
    let prfA := prove_opening params dA rnd.rA cA ctxA rnd.wmA rnd.wrA
    if verify_opening_proof params cA prfA ctxA = false then
      Except.error ChannelError.internalProof
    else
      let cB := (commit params dB rnd.rB).1
      let ctxB := proof_context cid 0 "bob"
      let prfB := prove_opening params dB rnd.rB cB ctxB rnd.wmB rnd.wrB
      if verify_opening_proof params cB prfB ctxB = false then
        Except.error ChannelError.internalProof
      else
        let st : ChannelState :=
          { sequence := 0, balA := dA, balB := dB, comA := cA, comB := cB,
            opA := rnd.rA, opB := rnd.rB, prA := prfA, prB := prfB,
            sigA := none, sigB := none }
        Except.ok
          { channel_id := cid, params := params, skA := skA, skB := skB,
            state := st, history := [st] }

/-- `Channel.state_digest()`. -/
def state_digest (ch : Channel) : List Nat :=
  compute_state_digest ch.channel_id ch.state.sequence ch.state.comA
    ch.state.comB

/-- `Channel.sign_state(participant_id)`: stores the signature over the
current digest under the participant's key. -/
def sign_state (ch : Channel) (pid : String) : Channel × Option ChannelError :=
  if ¬ (pid = "alice" ∨ pid = "bob") then
    (ch, some ChannelError.invalidParticipant)
  else if pid = "alice" then
    ({ ch with state := { ch.state with
        sigA := some (sign_message ch.skA (state_digest ch)) } }, none)
  else
    ({ ch with state := { ch.state with
        sigB := some (sign_message ch.skB (state_digest ch)) } }, none)

/-- `Channel.is_fully_signed()`. -/
def is_fully_signed (ch : Channel) : Bool :=
  ch.state.sigA.isSome && ch.state.sigB.isSome

/-- Serialized proof record `{t, response_m, response_r}` of hex strings. -/
structure ProofHex where
  t : List Nat
  response_m : List Nat
  response_r : List Nat
deriving DecidableEq

/-- `serialize_proof`. -/
def serialize_proof (pr : CommitmentProof) : ProofHex :=
  { t := hexDigitChars (natToHex pr.t)
    response_m := hexDigitChars (natToHex pr.response_m)
    response_r := hexDigitChars (natToHex pr.response_r) }

/-- `deserialize_proof`. -/
def deserialize_proof (ph : ProofHex) : CommitmentProof :=
  { t := hexToNat (ph.t.map hexCharVal)
    response_m := hexToNat (ph.response_m.map hexCharVal)
    response_r := hexToNat (ph.response_r.map hexCharVal) }

/-- The dictionary produced by `Channel.closing_payload()`.  The embedding
types the payload with the shape that method always produces (the
`isinstance` guards of `cooperative_close` hold for every payload of this
type; a payload failing them is rejected with `InvalidSettlement` in the
source and is not needed by any claim). -/
structure ClosePayload where
  channel_id : String
  sequence : Int
  balA : Int
  balB : Int
  comA : List Nat
  comB : List Nat
  opA : List Nat
  opB : List Nat
  prA : ProofHex
  prB : ProofHex
  sigA : Option (List Nat)
  sigB : Option (List Nat)
deriving DecidableEq

/-- `Channel.closing_payload()`. -/
def closing_payload (ch : Channel) : ClosePayload :=
  { channel_id := ch.channel_id
    sequence := (ch.state.sequence : Int)
    balA := ch.state.balA
    balB := ch.state.balB
    comA := serialize_commitment ch.state.comA
    comB := serialize_commitment ch.state.comB
    opA := serialize_opening ch.state.opA
    opB := serialize_opening ch.state.opB
    prA := serialize_proof ch.state.prA
    prB := serialize_proof ch.state.prB
    sigA := ch.state.sigA.map bytesToHexChars
    sigB := ch.state.sigB.map bytesToHexChars }

/-! ## `protocol/ledger.py` -/

/-- `LedgerError` hierarchy: `UnknownChannelError`, `InvalidSettlementError`. -/
inductive LedgerError where
  | unknownChannel
  | invalidSettlement
deriving DecidableEq

/-- `LedgerRecord`. -/
structure LedgerRecord where
  channel_id : String
  sequence : Nat
  comA : Nat
  comB : Nat
  vkA : Nat
  vkB : Nat
  closed : Bool
deriving DecidableEq

/-- The `_records` dictionary, as an association list with dict-style
replace-on-assignment. -/
def getRecord : List (String × LedgerRecord) → String → Option LedgerRecord
  | [], _ => none
  | (c, r) :: rest, cid => if c = cid then some r else getRecord rest cid

def setRecord : List (String × LedgerRecord) → String → LedgerRecord →
    List (String × LedgerRecord)
  | [], cid, r => [(cid, r)]
  | (c, old) :: rest, cid, r =>
    if c = cid then (cid, r) :: rest else (c, old) :: setRecord rest cid r

/-- `SimulatedLedger`. -/
structure SimulatedLedger where
  params : CommitmentParameters
  records : List (String × LedgerRecord)
deriving DecidableEq

/-- `SimulatedLedger.register_channel(channel)`. -/
def register_channel (L : SimulatedLedger) (ch : Channel) : SimulatedLedger :=
  let r0 : LedgerRecord :=
    { channel_id := ch.channel_id, sequence := ch.state.sequence,
      comA := ch.state.comA, comB := ch.state.comB,
      vkA := vkOf ch.skA, vkB := vkOf ch.skB, closed := false }
  { L with records := setRecord L.records ch.channel_id r0 }

/-- `SimulatedLedger.update_state(channel)`. -/
def update_state (L : SimulatedLedger) (ch : Channel) :
    SimulatedLedger × Option LedgerError :=
  match getRecord L.records ch.channel_id with
  | none => (L, some LedgerError.unknownChannel)
  | some rec =>
    if ch.state.sequence < rec.sequence then
      (L, some LedgerError.invalidSettlement)
    else
      let r1 : LedgerRecord :=
        { rec with
          sequence := ch.state.sequence,
          comA := ch.state.comA, comB := ch.state.comB }
      ({ L with records := setRecord L.records ch.channel_id r1 }, none)

/-- The settlement summary returned by a successful `cooperative_close`. -/
structure CloseResult where
  channel_id : String
  sequence : Nat
  balA : Int
  balB : Int
  verified : Bool
deriving DecidableEq

/-- `SimulatedLedger.cooperative_close(payload)`: resolves the record,
rejects closed records and sequence mismatches, compares the payload's
commitments byte-for-byte with the stored ones, recomputes the digest from
stored data, and per participant (alice first) verifies the signature, the
revealed opening against the stored commitment and claimed balance, and the
revealed proof under the stored sequence's context; only then marks the
record closed. -/
def cooperative_close (L : SimulatedLedger) (pl : ClosePayload) :
    SimulatedLedger × Except LedgerError CloseResult :=
  match getRecord L.records pl.channel_id with
  | none => (L, Except.error LedgerError.unknownChannel)
  | some rec =>
    if rec.closed then (L, Except.error LedgerError.invalidSettlement)
    else if pl.sequence ≠ (rec.sequence : Int) then
      (L, Except.error LedgerError.invalidSettlement)
    else if pl.comA ≠ serialize_commitment rec.comA then
      (L, Except.error LedgerError.invalidSettlement)
    else if pl.comB ≠ serialize_commitment rec.comB then
      (L, Except.error LedgerError.invalidSettlement)
    else
      let digest := compute_state_digest pl.channel_id rec.sequence rec.comA
        rec.comB
      match pl.sigA with
      | none => (L, Except.error LedgerError.invalidSettlement)
      | some sigAhex =>
        if verify_signature rec.vkA digest (hexCharsToBytes sigAhex) = false then
          (L, Except.error LedgerError.invalidSettlement)
        else if verify L.params rec.comA pl.balA (deserialize_opening pl.opA)
            = false then
          (L, Except.error LedgerError.invalidSettlement)
        else if verify_opening_proof L.params rec.comA (deserialize_proof pl.prA)
            (proof_context pl.channel_id rec.sequence "alice") = false then
          (L, Except.error LedgerError.invalidSettlement)
        else
          match pl.sigB with
          | none => (L, Except.error LedgerError.invalidSettlement)
          | some sigBhex =>
            if verify_signature rec.vkB digest (hexCharsToBytes sigBhex)
                = false then
              (L, Except.error LedgerError.invalidSettlement)
            else if verify L.params rec.comB pl.balB
                (deserialize_opening pl.opB) = false then
              (L, Except.error LedgerError.invalidSettlement)
            else if verify_opening_proof L.params rec.comB
                (deserialize_proof pl.prB)
                (proof_context pl.channel_id rec.sequence "bob") = false then
              (L, Except.error LedgerError.invalidSettlement)
            else
              let rClosed : LedgerRecord := { rec with closed := true }
              let res : CloseResult :=
                { channel_id := pl.channel_id, sequence := rec.sequence,
                  balA := pl.balA, balB := pl.balB, verified := true }
              ({ L with records := setRecord L.records pl.channel_id rClosed },
               Except.ok res)

/-! ## Workflow lemmas: the success paths of open and payment -/

/-- The state produced by a successful `_set_balances` run over a state
`st`: balances replaced, fresh commitments/openings/proofs for both
participants under the current sequence's contexts, signatures cleared. -/
def updated_state (cid : String) (params : CommitmentParameters)
    (st : ChannelState) (bA bB : Int) (rnd : TxRand) : ChannelState :=
  let cA := (commit params bA rnd.rA).1
  let cB := (commit params bB rnd.rB).1
  { st with
    balA := bA, balB := bB, comA := cA, comB := cB,
    opA := rnd.rA, opB := rnd.rB,
    prA := prove_opening params bA rnd.rA cA
      (proof_context cid st.sequence "alice") rnd.wmA rnd.wrA,
    prB := prove_opening params bB rnd.rB cB
      (proof_context cid st.sequence "bob") rnd.wmB rnd.wrB,
    sigA := none, sigB := none }

/-- The channel produced by a successful `apply_payment`: transfer applied,
sequence incremented, state refreshed, new state appended to history. -/
def paid_channel (ch : Channel) (payer : String) (amount : Int)
    (rnd : TxRand) : Channel :=
  let bA := if payer = "alice" then ch.state.balA - amount
    else ch.state.balA + amount
  let bB := if payer = "alice" then ch.state.balB + amount
    else ch.state.balB - amount
  let st1 : ChannelState :=
    { ch.state with sequence := ch.state.sequence + 1 }
  let stU := updated_state ch.channel_id ch.params st1 bA bB rnd
  { ch with state := stU, history := ch.history ++ [stU] }

/-- The channel produced by a successful `Channel.open`. -/
def opened_channel (dA dB : Int) (cid : String) (skA skB : Nat)
    (rnd : TxRand) : Channel :=
  let cA := (commit default_parameters dA rnd.rA).1
  let cB := (commit default_parameters dB rnd.rB).1
  let st : ChannelState :=
    { sequence := 0, balA := dA, balB := dB, comA := cA, comB := cB,
      opA := rnd.rA, opB := rnd.rB,
      prA := prove_opening default_parameters dA rnd.rA cA
        (proof_context cid 0 "alice") rnd.wmA rnd.wrA,
      prB := prove_opening default_parameters dB rnd.rB cB
        (proof_context cid 0 "bob") rnd.wmB rnd.wrB,
      sigA := none, sigB := none }
  { channel_id := cid, params := default_parameters, skA := skA, skB := skB,
    state := st, history := [st] }

/-- Sequential payment application (`apply_payment` driven in a loop, as the
benchmark and API clients do); stops at the first error. -/
def apply_payments (ch : Channel) :
    List (String × Int × TxRand) → Channel × Option ChannelError
  | [] => (ch, none)
  | (payer, amount, rnd) :: rest =>
    match apply_payment ch payer amount rnd with
    | (ch2, none) => apply_payments ch2 rest
    | (ch2, some e) => (ch2, some e)

/-- A small concrete channel used to witness the channel-level theorems. -/
def sample_channel : Channel :=
  { channel_id := "chan-0", params := default_parameters, skA := 1, skB := 2,
    state :=
      { sequence := 0, balA := 5, balB := 5, comA := 1, comB := 1,
        opA := 1, opB := 1, prA := { t := 1, response_m := 1, response_r := 1 },
        prB := { t := 1, response_m := 1, response_r := 1 },
        sigA := none, sigB := none },
    history := [] }

/-- Sequence-0 state of the scenario channel. -/
def txStateZero (cid : String) (rnd0 : TxRand) : ChannelState :=
  { sequence := 0, balA := 200, balB := 50,
    comA := (commit default_parameters 200 rnd0.rA).1,
    comB := (commit default_parameters 50 rnd0.rB).1,
    opA := rnd0.rA, opB := rnd0.rB,
    prA := prove_opening default_parameters 200 rnd0.rA
      (commit default_parameters 200 rnd0.rA).1
      (proof_context cid 0 "alice") rnd0.wmA rnd0.wrA,
    prB := prove_opening default_parameters 50 rnd0.rB
      (commit default_parameters 50 rnd0.rB).1
      (proof_context cid 0 "bob") rnd0.wmB rnd0.wrB,
    sigA := none, sigB := none }

/-- Sequence-1 state after alice pays 25. -/
def txStateOne (cid : String) (rnd1 : TxRand) : ChannelState :=
  { sequence := 1, balA := 175, balB := 75,
    comA := (commit default_parameters 175 rnd1.rA).1,
    comB := (commit default_parameters 75 rnd1.rB).1,
    opA := rnd1.rA, opB := rnd1.rB,
    prA := prove_opening default_parameters 175 rnd1.rA
      (commit default_parameters 175 rnd1.rA).1
      (proof_context cid 1 "alice") rnd1.wmA rnd1.wrA,
    prB := prove_opening default_parameters 75 rnd1.rB
      (commit default_parameters 75 rnd1.rB).1
      (proof_context cid 1 "bob") rnd1.wmB rnd1.wrB,
    sigA := none, sigB := none }

/-- The digest both participants co-sign at sequence 1. -/
def txDigest (cid : String) (rnd1 : TxRand) : List Nat :=
  compute_state_digest cid 1 (commit default_parameters 175 rnd1.rA).1
    (commit default_parameters 75 rnd1.rB).1

def txChannelZero (cid : String) (skA skB : Nat) (rnd0 : TxRand) : Channel :=
  { channel_id := cid, params := default_parameters, skA := skA, skB := skB,
    state := txStateZero cid rnd0, history := [txStateZero cid rnd0] }

def txChannelOne (cid : String) (skA skB : Nat) (rnd0 rnd1 : TxRand) :
    Channel :=
  { channel_id := cid, params := default_parameters, skA := skA, skB := skB,
    state := txStateOne cid rnd1,
    history := [txStateZero cid rnd0, txStateOne cid rnd1] }

def txChannelTwo (cid : String) (skA skB : Nat) (rnd0 rnd1 : TxRand) :
    Channel :=
  { channel_id := cid, params := default_parameters, skA := skA, skB := skB,
    state := { txStateOne cid rnd1 with
      sigA := some (sign_message skA (txDigest cid rnd1)) },
    history := [txStateZero cid rnd0, txStateOne cid rnd1] }

def txChannelThree (cid : String) (skA skB : Nat) (rnd0 rnd1 : TxRand) :
    Channel :=
  { channel_id := cid, params := default_parameters, skA := skA, skB := skB,
    state := { txStateOne cid rnd1 with
      sigA := some (sign_message skA (txDigest cid rnd1)),
      sigB := some (sign_message skB (txDigest cid rnd1)) },
    history := [txStateZero cid rnd0, txStateOne cid rnd1] }

/-- The ledger record after `update_state` at sequence 1. -/
def txRecordOne (cid : String) (skA skB : Nat) (rnd1 : TxRand) :
    LedgerRecord :=
  { channel_id := cid, sequence := 1,
    comA := (commit default_parameters 175 rnd1.rA).1,
    comB := (commit default_parameters 75 rnd1.rB).1,
    vkA := vkOf skA, vkB := vkOf skB, closed := false }

def txLedgerOne (cid : String) (skA skB : Nat) (rnd1 : TxRand) :
    SimulatedLedger :=
  { params := default_parameters,
    records := [(cid, txRecordOne cid skA skB rnd1)] }

def txLedgerTwo (cid : String) (skA skB : Nat) (rnd1 : TxRand) :
    SimulatedLedger :=
  { params := default_parameters,
    records := [(cid, { txRecordOne cid skA skB rnd1 with closed := true })] }

theorem sq_mod (b x m : Nat) :
    b ^ x % m * (b ^ x % m) % m = b ^ (2 * x) % m := by
  rw [← Nat.mul_mod, two_mul, pow_add]

theorem digitStep_eq (b m x d : Nat) :
    digitStep b m (b ^ x % m) d = b ^ (16 * x + d) % m := by
  show b ^ x % m * (b ^ x % m) % m * (b ^ x % m * (b ^ x % m) % m) % m *
      (b ^ x % m * (b ^ x % m) % m * (b ^ x % m * (b ^ x % m) % m) % m) % m *
      (b ^ x % m * (b ^ x % m) % m * (b ^ x % m * (b ^ x % m) % m) % m *
        (b ^ x % m * (b ^ x % m) % m * (b ^ x % m * (b ^ x % m) % m) % m) % m) % m *
      (b ^ d % m) % m = b ^ (16 * x + d) % m
  rw [sq_mod, sq_mod, sq_mod, sq_mod, ← Nat.mul_mod, ← pow_add]
  have h : 2 * (2 * (2 * (2 * x))) + d = 16 * x + d := by ring
  rw [h]

theorem powDigitsAux_eq (b m : Nat) :
    ∀ (l : List Nat) (x : Nat),
      powDigitsAux b m l (b ^ x % m) = b ^ digitsVal l x % m := by
  intro l
  induction l with
  | nil => intro x; rfl
  | cons d rest ih =>
    intro x
    show powDigitsAux b m rest (digitStep b m (b ^ x % m) d) = _
    rw [digitStep_eq]
    exact ih (16 * x + d)

theorem powDigits_eq (b m : Nat) (digits : List Nat) :
    powDigits b m digits = b ^ digitsVal digits 0 % m := by
  have h : (1 : Nat) % m = b ^ 0 % m := by rw [pow_zero]
  rw [powDigits, h, powDigitsAux_eq]

theorem powMod_eq (b e m : Nat) : powMod b e m = b ^ e % m := rfl

set_option maxRecDepth 10000 in
theorem qDigits_val : digitsVal qDigits 0 = qVal := by decide

set_option maxRecDepth 10000 in
theorem powDigits_q : powDigits 2 pHex qDigits = 1 := by decide

/-- In the hard-coded group, `2 ^ q ≡ 1 (mod p)`: the generator `g = 2` lies
in the order-`q` subgroup.  This is the group fact behind every completeness
statement below. -/
theorem two_pow_q_mod_p : 2 ^ qVal % pHex = 1 := by
  have h := powDigits_eq 2 pHex qDigits
  rw [qDigits_val] at h
  rw [← h, powDigits_q]

theorem hexCharVal_hexDigitChar (d : Nat) : hexCharVal (hexDigitChar d) = d := by
  unfold hexCharVal hexDigitChar
  by_cases h : d < 10 <;> simp [h] <;> omega

theorem hexToNat_append (xs : List Nat) (d : Nat) :
    hexToNat (xs ++ [d]) = 16 * hexToNat xs + d := by
  unfold hexToNat
  rw [List.foldl_append]
  rfl

theorem hexToNat_natToHexAux :
    ∀ (fuel n : Nat), n ≤ fuel → hexToNat (natToHexAux fuel n) = n := by
  intro fuel
  induction fuel with
  | zero =>
    intro n hn
    have h0 : n = 0 := Nat.le_zero.mp hn
    subst h0
    rfl
  | succ f ih =>
    intro n hn
    by_cases h0 : n = 0
    · subst h0; rfl
    · have hdiv : n / 16 ≤ f := by
        have : n / 16 < n := Nat.div_lt_self (Nat.pos_of_ne_zero h0) (by omega)
        omega
      show hexToNat (natToHexAux (f + 1) n) = n
      unfold natToHexAux
      rw [if_neg h0, hexToNat_append, ih (n / 16) hdiv]
      omega

theorem hexToNat_natToHex (n : Nat) : hexToNat (natToHex n) = n := by
  unfold natToHex
  by_cases h0 : n = 0
  · subst h0; rw [if_pos rfl]; rfl
  · rw [if_neg h0]
    exact hexToNat_natToHexAux n n (Nat.le_refl n)

theorem map_hexCharVal_hexDigitChars (ds : List Nat) :
    (hexDigitChars ds).map hexCharVal = ds := by
  induction ds with
  | nil => rfl
  | cons d rest ih =>
    show hexCharVal (hexDigitChar d) :: (hexDigitChars rest).map hexCharVal = d :: rest
    rw [hexCharVal_hexDigitChar, ih]

theorem hexCharsToBytes_bytesToHexChars (bs : List Nat) :
    hexCharsToBytes (bytesToHexChars bs) = bs := by
  induction bs with
  | nil => rfl
  | cons b rest ih =>
    show (16 * hexCharVal (hexDigitChar (b / 16)) + hexCharVal (hexDigitChar (b % 16)))
        :: hexCharsToBytes (bytesToHexChars rest) = b :: rest
    rw [hexCharVal_hexDigitChar, hexCharVal_hexDigitChar, ih, Nat.div_add_mod]

theorem deserialize_serialize_commitment (c : Nat) :
    deserialize_commitment (serialize_commitment c) = c := by
  unfold deserialize_commitment serialize_commitment
  rw [map_hexCharVal_hexDigitChars, hexToNat_natToHex]

theorem deserialize_serialize_opening (r : Nat) :
    deserialize_opening (serialize_opening r) = r := by
  unfold deserialize_opening serialize_opening
  rw [map_hexCharVal_hexDigitChars, hexToNat_natToHex]

/-! ## Group algebra for the default parameters -/

theorem pHex_gt_one : 1 < pHex := by decide

theorem one_mod_pHex : 1 % pHex = 1 := Nat.mod_eq_of_lt pHex_gt_one

/-- For a base whose `q`-th power is 1 mod `p`, exponents reduce mod `q`. -/
theorem pow_reduceExp (b : Nat) (x : Nat) (hb : b ^ qVal % pHex = 1) :
    b ^ (x % qVal) % pHex = b ^ x % pHex := by
  have hbm : b ^ qVal ≡ 1 [MOD pHex] := by
    show b ^ qVal % pHex = 1 % pHex
    rw [hb, one_mod_pHex]
  have h3 : (b ^ qVal) ^ (x / qVal) * b ^ (x % qVal)
      ≡ 1 ^ (x / qVal) * b ^ (x % qVal) [MOD pHex] :=
    Nat.ModEq.mul (hbm.pow _) Nat.ModEq.rfl
  rw [one_pow, one_mul] at h3
  have h2 : b ^ x ≡ b ^ (x % qVal) [MOD pHex] := by
    calc b ^ x = (b ^ qVal) ^ (x / qVal) * b ^ (x % qVal) := by
          rw [← pow_mul, ← pow_add, Nat.div_add_mod]
      _ ≡ b ^ (x % qVal) [MOD pHex] := h3
  exact h2.symm

theorem two_pow_q_modEq : (2 : Nat) ^ qVal ≡ 1 [MOD pHex] := by
  show 2 ^ qVal % pHex = 1 % pHex
  rw [two_pow_q_mod_p, one_mod_pHex]

/-- The derived generator `h` also lies in the order-`q` subgroup. -/
theorem h_pow_q_mod_p : default_parameters.h ^ qVal % pHex = 1 := by
  set s := hashToScalar (encodeStr ("pedersen-h-generator")) qVal with hs
  have h1 : default_parameters.h ^ qVal ≡ 1 [MOD pHex] := by
    have e1 : default_parameters.h ^ qVal = (powMod 2 s pHex) ^ qVal := rfl
    rw [e1, powMod_eq]
    calc (2 ^ s % pHex) ^ qVal
        ≡ (2 ^ s) ^ qVal [MOD pHex] := (Nat.mod_modEq _ _).pow _
      _ = (2 ^ qVal) ^ s := by rw [← pow_mul, mul_comm, pow_mul]
      _ ≡ 1 ^ s [MOD pHex] := two_pow_q_modEq.pow s
      _ = 1 := one_pow s
  calc default_parameters.h ^ qVal % pHex = 1 % pHex := h1
    _ = 1 := one_mod_pHex

/-- Completeness of `verify` against `commit`: a commitment opens to the
message and randomness it was created from, for every integer message and
every randomness value. -/
theorem verify_commit (message : Int) (r : Nat) :
    verify default_parameters (commit default_parameters message r).1 message r
      = true := by
  simp only [verify, commit, beq_iff_eq]
  exact Nat.mod_mod_of_dvd _ dvd_rfl

/-- The algebraic heart of Schnorr completeness, stated over the reduced
message `m`, randomness `r`, nonces `wm`, `wr` and challenge `ch`. -/
theorem schnorr_core (m r wm wr ch : Nat) :
    2 ^ ((wm + ch * m) % qVal) % pHex *
        (default_parameters.h ^ ((wr + ch * r) % qVal) % pHex) % pHex
      = 2 ^ wm % pHex * (default_parameters.h ^ wr % pHex) % pHex *
        ((2 ^ m % pHex * (default_parameters.h ^ r % pHex) % pHex % pHex) ^ ch
          % pHex) % pHex := by
  set H := default_parameters.h with hH
  show Nat.ModEq pHex
    (2 ^ ((wm + ch * m) % qVal) % pHex * (H ^ ((wr + ch * r) % qVal) % pHex))
    (2 ^ wm % pHex * (H ^ wr % pHex) % pHex *
      ((2 ^ m % pHex * (H ^ r % pHex) % pHex % pHex) ^ ch % pHex))
  have h1 : 2 ^ ((wm + ch * m) % qVal) % pHex ≡ 2 ^ (wm + ch * m) [MOD pHex] :=
    (Nat.mod_modEq _ _).trans
      (Nat.ModEq.symm (Nat.ModEq.symm (pow_reduceExp 2 _ two_pow_q_mod_p)))
  have h2 : H ^ ((wr + ch * r) % qVal) % pHex ≡ H ^ (wr + ch * r) [MOD pHex] :=
    (Nat.mod_modEq _ _).trans (pow_reduceExp H _ h_pow_q_mod_p)
  have hc : 2 ^ m % pHex * (H ^ r % pHex) % pHex % pHex ≡ 2 ^ m * H ^ r [MOD pHex] :=
    ((Nat.mod_modEq _ _).trans (Nat.mod_modEq _ _)).trans
      (Nat.ModEq.mul (Nat.mod_modEq _ _) (Nat.mod_modEq _ _))
  have ht : 2 ^ wm % pHex * (H ^ wr % pHex) % pHex ≡ 2 ^ wm * H ^ wr [MOD pHex] :=
    (Nat.mod_modEq _ _).trans
      (Nat.ModEq.mul (Nat.mod_modEq _ _) (Nat.mod_modEq _ _))
  have hw : (2 ^ m % pHex * (H ^ r % pHex) % pHex % pHex) ^ ch % pHex
      ≡ (2 ^ m * H ^ r) ^ ch [MOD pHex] :=
    (Nat.mod_modEq _ _).trans (Nat.ModEq.pow ch hc)
  calc 2 ^ ((wm + ch * m) % qVal) % pHex * (H ^ ((wr + ch * r) % qVal) % pHex)
      ≡ 2 ^ (wm + ch * m) * H ^ (wr + ch * r) [MOD pHex] := Nat.ModEq.mul h1 h2
    _ = 2 ^ wm * H ^ wr * (2 ^ m * H ^ r) ^ ch := by
        rw [mul_pow, ← pow_mul, ← pow_mul, pow_add, pow_add]
        ring
    _ ≡ 2 ^ wm % pHex * (H ^ wr % pHex) % pHex *
        ((2 ^ m % pHex * (H ^ r % pHex) % pHex % pHex) ^ ch % pHex) [MOD pHex] :=
        (Nat.ModEq.mul ht hw).symm

/-- Completeness of the Fiat-Shamir proof of opening: a proof produced by
`prove_opening` over a commitment from `commit` verifies under the same
context, for every message, randomness, context and nonce values. -/
theorem proof_completeness (message : Int) (r : Nat) (context : List Nat)
    (w_m w_r : Nat) :
    verify_opening_proof default_parameters (commit default_parameters message r).1
      (prove_opening default_parameters message r
        (commit default_parameters message r).1 context w_m w_r) context = true := by
  simp only [verify_opening_proof, prove_opening, commit, beq_iff_eq,
    powMod_eq]
  exact schnorr_core ((message % (qVal : Int)).toNat) r w_m w_r _

/-- Reducing the already-reduced sum of two messages equals the mod-`q` sum
of the individually reduced messages. -/
theorem int_sum_reduce (m1 m2 : Int) :
    (((m1 + m2) % (qVal : Int)) % (qVal : Int)).toNat
      = ((m1 % (qVal : Int)).toNat + (m2 % (qVal : Int)).toNat) % qVal := by
  have hq0 : (qVal : Int) ≠ 0 := by
    have h : 0 < qVal := by decide
    simp [Nat.pos_iff_ne_zero.mp h]
  have h1 : 0 ≤ m1 % (qVal : Int) := Int.emod_nonneg m1 hq0
  have h2 : 0 ≤ m2 % (qVal : Int) := Int.emod_nonneg m2 hq0
  rw [Int.emod_emod_of_dvd _ dvd_rfl, Int.add_emod]
  conv_lhs => rw [← Int.toNat_of_nonneg h1, ← Int.toNat_of_nonneg h2]
  rw [← Nat.cast_add, ← Int.natCast_mod, Int.toNat_natCast]

theorem dp_p : default_parameters.p = pHex := rfl

theorem dp_q : default_parameters.q = qVal := rfl

theorem dp_g : default_parameters.g = 2 := rfl

theorem dp_h : default_parameters.h
    = powMod 2 (hashToScalar (encodeStr ("pedersen-h-generator")) qVal) pHex :=
  rfl

/-- C3 — Additive homomorphism: the product of two commitments (as formed by
`add_commitments`) opens, via `verify`, to the message `(m1 + m2) mod q`
under the opening formed by `add_openings`, for all integer messages and all
openings. -/
theorem claimC3_additive_homomorphism (m1 m2 : Int) (r1 r2 : Nat) :
    verify default_parameters
      (add_commitments default_parameters
        [(commit default_parameters m1 r1).1, (commit default_parameters m2 r2).1])
      ((m1 + m2) % ((default_parameters.q : Nat) : Int))
      (add_openings default_parameters [r1, r2]) = true := by
  simp only [verify, add_commitments, add_openings, commit, beq_iff_eq,
    List.foldl, zero_add, one_mul, dp_p, dp_q, dp_g, powMod_eq]
  have hm : (((m1 + m2) % (qVal : Int)) % (qVal : Int)).toNat
      = ((m1 % (qVal : Int)).toNat + (m2 % (qVal : Int)).toNat) % qVal :=
    int_sum_reduce m1 m2
  set H := default_parameters.h with hH
  set a1 := (m1 % (qVal : Int)).toNat with ha1
  set a2 := (m2 % (qVal : Int)).toNat with ha2
  rw [hm]
  show Nat.ModEq pHex
    (2 ^ a1 % pHex * (H ^ r1 % pHex) % pHex % pHex *
      (2 ^ a2 % pHex * (H ^ r2 % pHex) % pHex) % pHex)
    (2 ^ ((a1 + a2) % qVal) % pHex * (H ^ ((r1 % qVal + r2) % qVal) % pHex))
  have hc1 : 2 ^ a1 % pHex * (H ^ r1 % pHex) % pHex % pHex
      ≡ 2 ^ a1 * H ^ r1 [MOD pHex] :=
    ((Nat.mod_modEq _ _).trans (Nat.mod_modEq _ _)).trans
      (Nat.ModEq.mul (Nat.mod_modEq _ _) (Nat.mod_modEq _ _))
  have hc2 : 2 ^ a2 % pHex * (H ^ r2 % pHex) % pHex
      ≡ 2 ^ a2 * H ^ r2 [MOD pHex] :=
    (Nat.mod_modEq _ _).trans
      (Nat.ModEq.mul (Nat.mod_modEq _ _) (Nat.mod_modEq _ _))
  have hg : 2 ^ ((a1 + a2) % qVal) % pHex ≡ 2 ^ (a1 + a2) [MOD pHex] :=
    (Nat.mod_modEq _ _).trans (pow_reduceExp 2 _ two_pow_q_mod_p)
  have hr : H ^ ((r1 % qVal + r2) % qVal) % pHex ≡ H ^ (r1 + r2) [MOD pHex] := by
    have hinner : H ^ (r1 % qVal + r2) ≡ H ^ (r1 + r2) [MOD pHex] := by
      rw [pow_add, pow_add]
      have hx : H ^ (r1 % qVal) ≡ H ^ r1 [MOD pHex] := by
        show H ^ (r1 % qVal) % pHex = H ^ r1 % pHex
        exact pow_reduceExp H r1 h_pow_q_mod_p
      exact Nat.ModEq.mul hx Nat.ModEq.rfl
    exact ((Nat.mod_modEq _ _).trans (pow_reduceExp H _ h_pow_q_mod_p)).trans hinner
  calc 2 ^ a1 % pHex * (H ^ r1 % pHex) % pHex % pHex *
        (2 ^ a2 % pHex * (H ^ r2 % pHex) % pHex) % pHex
      ≡ 2 ^ a1 * H ^ r1 * (2 ^ a2 * H ^ r2) [MOD pHex] :=
        (Nat.mod_modEq _ _).trans (Nat.ModEq.mul hc1 hc2)
    _ = 2 ^ (a1 + a2) * H ^ (r1 + r2) := by rw [pow_add, pow_add]; ring
    _ ≡ 2 ^ ((a1 + a2) % qVal) % pHex * (H ^ ((r1 % qVal + r2) % qVal) % pHex)
        [MOD pHex] := (Nat.ModEq.mul hg hr).symm

theorem verify_sign (sk : Nat) (msg : List Nat) :
    verify_signature (vkOf sk) msg (sign_message sk msg) = true := by
  simp [verify_signature, sign_message]

theorem deserialize_serialize_proof (pr : CommitmentProof) :
    deserialize_proof (serialize_proof pr) = pr := by
  unfold deserialize_proof serialize_proof
  simp only [map_hexCharVal_hexDigitChars, hexToNat_natToHex]

/-- On a channel with the default parameters, `_set_balances` always takes
its success path: both self-checks pass by proof completeness. -/
theorem set_balances_ok (ch : Channel) (hp : ch.params = default_parameters)
    (bA bB : Int) (rnd : TxRand) :
    set_balances ch bA bB rnd =
      ({ ch with state :=
          updated_state ch.channel_id ch.params ch.state bA bB rnd }, none) := by
  unfold set_balances updated_state
  rw [hp]
  simp only [proof_completeness]
  rfl

/-- `apply_payment` succeeds exactly when the payer is valid, the amount is
positive and covered by the payer's balance; the result is `paid_channel`. -/
theorem apply_payment_ok (ch : Channel) (hp : ch.params = default_parameters)
    (payer : String) (amount : Int) (rnd : TxRand)
    (hv : payer = "alice" ∨ payer = "bob") (ha : 0 < amount)
    (hb : ¬ balOf ch.state payer < amount) :
    apply_payment ch payer amount rnd = (paid_channel ch payer amount rnd, none) := by
  simp only [apply_payment, paid_channel]
  rw [if_neg (not_not_intro hv), if_neg (not_le.mpr ha), if_neg hb]
  have h1 : ({ ch with state := { ch.state with
      sequence := ch.state.sequence + 1 } } : Channel).params
      = default_parameters := hp
  rw [set_balances_ok _ h1]

/-- With non-negative deposits and the default parameters, `Channel.open`
succeeds and returns the explicit sequence-0 channel. -/
theorem open_ok (dA dB : Int) (cid : String) (skA skB : Nat) (rnd : TxRand)
    (h0 : 0 ≤ dA) (h1 : 0 ≤ dB) :
    openChannel dA dB default_parameters cid skA skB rnd
      = Except.ok (opened_channel dA dB cid skA skB rnd) := by
  unfold openChannel opened_channel
  rw [if_neg (by omega : ¬ (dA < 0 ∨ dB < 0))]
  simp only [proof_completeness]
  rfl

/-- Whatever branch `_set_balances` takes, the returned channel carries the
new balances; on success both signature slots are cleared. -/
theorem set_balances_result (ch : Channel) (bA bB : Int) (rnd : TxRand)
    (ch2 : Channel) (e : Option ChannelError)
    (h : set_balances ch bA bB rnd = (ch2, e)) :
    ch2.state.balA = bA ∧ ch2.state.balB = bB ∧
      (e = none → ch2.state.sigA = none ∧ ch2.state.sigB = none) := by
  simp only [set_balances] at h
  split_ifs at h
  · injection h with hA hB
    subst hA; subst hB
    exact ⟨rfl, rfl, fun he => Option.noConfusion he⟩
  · injection h with hA hB
    subst hA; subst hB
    exact ⟨rfl, rfl, fun he => Option.noConfusion he⟩
  · injection h with hA hB
    subst hA; subst hB
    exact ⟨rfl, rfl, fun _ => ⟨rfl, rfl⟩⟩

theorem pair_some_ne_none {α β : Type} (a c : α) (b : β)
    (h : (a, some b) = (c, (none : Option β))) : False := by
  injection h with h1 h2
  exact Option.noConfusion h2

/-- A successful `apply_payment` conserves the balance total and clears both
signatures. -/
theorem apply_payment_success (ch ch' : Channel) (payer : String)
    (amount : Int) (rnd : TxRand)
    (h : apply_payment ch payer amount rnd = (ch', none)) :
    ch'.state.balA + ch'.state.balB = ch.state.balA + ch.state.balB ∧
      ch'.state.sigA = none ∧ ch'.state.sigB = none := by
  simp only [apply_payment] at h
  by_cases hv : ¬ (payer = "alice" ∨ payer = "bob")
  · rw [if_pos hv] at h
    exact (pair_some_ne_none _ _ _ h).elim
  · rw [if_neg hv] at h
    by_cases ha : amount ≤ 0
    · rw [if_pos ha] at h
      exact (pair_some_ne_none _ _ _ h).elim
    · rw [if_neg ha] at h
      by_cases hb : balOf ch.state payer < amount
      · rw [if_pos hb] at h
        exact (pair_some_ne_none _ _ _ h).elim
      · rw [if_neg hb] at h
        split at h
        · exact (pair_some_ne_none _ _ _ h).elim
        · next ch2 heq =>
            injection h with hA hB
            subst hA
            obtain ⟨e1, e2, e3⟩ := set_balances_result _ _ _ _ _ _ heq
            obtain ⟨s1, s2⟩ := e3 rfl
            refine ⟨?_, s1, s2⟩
            show ch2.state.balA + ch2.state.balB = _
            rw [e1, e2]
            by_cases hp : payer = "alice"
            · rw [if_pos hp, if_pos hp]; ring
            · rw [if_neg hp, if_neg hp]; ring

theorem apply_payments_nil (ch : Channel) : apply_payments ch [] = (ch, none) :=
  rfl

theorem apply_payments_cons (ch ch2 : Channel) (payer : String) (amount : Int)
    (rnd : TxRand) (rest : List (String × Int × TxRand))
    (h : apply_payment ch payer amount rnd = (ch2, none)) :
    apply_payments ch ((payer, amount, rnd) :: rest)
      = apply_payments ch2 rest := by
  simp only [apply_payments, h]

theorem apply_payments_conserve (ps : List (String × Int × TxRand)) :
    ∀ (ch chN : Channel), apply_payments ch ps = (chN, none) →
      chN.state.balA + chN.state.balB = ch.state.balA + ch.state.balB := by
  induction ps with
  | nil =>
    intro ch chN h
    simp only [apply_payments] at h
    injection h with hA hB
    subst hA
    rfl
  | cons p rest ih =>
    intro ch chN h
    obtain ⟨payer, amount, rnd⟩ := p
    simp only [apply_payments] at h
    split at h
    · next ch2 heq =>
        have e1 := ih ch2 chN h
        have e2 := (apply_payment_success ch ch2 payer amount rnd heq).1
        rw [e1, e2]
    · exact (pair_some_ne_none _ _ _ h).elim

/-- C1 — Balance conservation: for a channel opened with non-negative
deposits, after every finite sequence of successful `apply_payment` calls
the two balances sum to the total deposit. -/
theorem claimC1_balance_conservation (dA dB : Int) (cid : String)
    (skA skB : Nat) (rnd : TxRand) (ps : List (String × Int × TxRand))
    (ch0 chN : Channel) (h0 : 0 ≤ dA) (h1 : 0 ≤ dB)
    (hopen : openChannel dA dB default_parameters cid skA skB rnd
      = Except.ok ch0)
    (happ : apply_payments ch0 ps = (chN, none)) :
    chN.state.balA + chN.state.balB = dA + dB := by
  rw [open_ok dA dB cid skA skB rnd h0 h1] at hopen
  injection hopen with hch
  subst hch
  have e1 := apply_payments_conserve ps _ chN happ
  rw [e1]
  rfl

/-- C7 — Signature invalidation: after every successful `apply_payment` the
signatures mapping is empty and `is_fully_signed()` is false. -/
theorem claimC7_signature_invalidation (ch ch' : Channel) (payer : String)
    (amount : Int) (rnd : TxRand)
    (h : apply_payment ch payer amount rnd = (ch', none)) :
    ch'.state.sigA = none ∧ ch'.state.sigB = none ∧
      is_fully_signed ch' = false := by
  obtain ⟨_, s1, s2⟩ := apply_payment_success ch ch' payer amount rnd h
  refine ⟨s1, s2, ?_⟩
  simp [is_fully_signed, s1, s2]

/-- C8 — `apply_payment` failure taxonomy: `InvalidParticipant` for an
unknown payer; otherwise `InvalidAmount` for a non-positive amount;
otherwise `InsufficientBalance` when the amount exceeds the payer's
balance; otherwise success.  Every failure returns the channel (state and
history) unchanged. -/
theorem claimC8_payment_taxonomy (ch : Channel) (payer : String)
    (amount : Int) (rnd : TxRand) :
    (¬ (payer = "alice" ∨ payer = "bob") →
      apply_payment ch payer amount rnd
        = (ch, some ChannelError.invalidParticipant)) ∧
    ((payer = "alice" ∨ payer = "bob") → amount ≤ 0 →
      apply_payment ch payer amount rnd
        = (ch, some ChannelError.invalidAmount)) ∧
    ((payer = "alice" ∨ payer = "bob") → 0 < amount →
      balOf ch.state payer < amount →
      apply_payment ch payer amount rnd
        = (ch, some ChannelError.insufficientBalance)) ∧
    (ch.params = default_parameters → (payer = "alice" ∨ payer = "bob") →
      0 < amount → ¬ balOf ch.state payer < amount →
      apply_payment ch payer amount rnd
        = (paid_channel ch payer amount rnd, none)) := by
  refine ⟨?_, ?_, ?_, ?_⟩
  · intro h
    simp only [apply_payment]
    rw [if_pos h]
  · intro hv ha
    simp only [apply_payment]
    rw [if_neg (not_not_intro hv), if_pos ha]
  · intro hv ha hb
    simp only [apply_payment]
    rw [if_neg (not_not_intro hv), if_neg (not_le.mpr ha), if_pos hb]
  · intro hp hv ha hb
    exact apply_payment_ok ch hp payer amount rnd hv ha hb

/-- Witness for C8 at a concrete input: paying 7 from bob with balance 5
fails with `InsufficientBalance` and leaves the channel unchanged. -/
theorem claimC8_witness :
    ("bob" = "alice" ∨ "bob" = "bob") ∧ (0 : Int) < 7 ∧
    balOf sample_channel.state "bob" < 7 ∧
    apply_payment sample_channel "bob" 7 (TxRand.mk 1 1 1 1 1 1)
      = (sample_channel, some ChannelError.insufficientBalance) :=
  ⟨Or.inr rfl, by decide, by decide,
    (claimC8_payment_taxonomy sample_channel "bob" 7
      (TxRand.mk 1 1 1 1 1 1)).2.2.1 (Or.inr rfl) (by decide) (by decide)⟩

/-- Witness for C7 at a concrete input: a successful payment of 2 from
alice on the sample channel clears both signature slots. -/
theorem claimC7_witness :
    apply_payment sample_channel "alice" 2 (TxRand.mk 1 1 1 1 1 1)
      = (paid_channel sample_channel "alice" 2 (TxRand.mk 1 1 1 1 1 1), none) ∧
    (paid_channel sample_channel "alice" 2 (TxRand.mk 1 1 1 1 1 1)).state.sigA
      = none :=
  ⟨apply_payment_ok sample_channel rfl "alice" 2 (TxRand.mk 1 1 1 1 1 1)
      (Or.inl rfl) (by decide) (by decide),
    (claimC7_signature_invalidation sample_channel _ "alice" 2
      (TxRand.mk 1 1 1 1 1 1)
      (apply_payment_ok sample_channel rfl "alice" 2 (TxRand.mk 1 1 1 1 1 1)
        (Or.inl rfl) (by decide) (by decide))).1⟩

/-- Witness for C1 at a concrete input: deposits (2, 3), one payment of 1
from alice; the balances still sum to 5. -/
theorem claimC1_witness :
    (0 : Int) ≤ 2 ∧
    (paid_channel (opened_channel 2 3 "chan-1" 1 2 (TxRand.mk 1 1 1 1 1 1))
        "alice" 1 (TxRand.mk 1 1 1 1 1 1)).state.balA +
      (paid_channel (opened_channel 2 3 "chan-1" 1 2 (TxRand.mk 1 1 1 1 1 1))
        "alice" 1 (TxRand.mk 1 1 1 1 1 1)).state.balB = 2 + 3 := by
  refine ⟨by decide, ?_⟩
  have hopen : openChannel 2 3 default_parameters "chan-1" 1 2
      (TxRand.mk 1 1 1 1 1 1)
      = Except.ok (opened_channel 2 3 "chan-1" 1 2 (TxRand.mk 1 1 1 1 1 1)) :=
    open_ok 2 3 "chan-1" 1 2 (TxRand.mk 1 1 1 1 1 1) (by decide) (by decide)
  have happ1 : apply_payment (opened_channel 2 3 "chan-1" 1 2
        (TxRand.mk 1 1 1 1 1 1)) "alice" 1 (TxRand.mk 1 1 1 1 1 1)
      = (paid_channel (opened_channel 2 3 "chan-1" 1 2 (TxRand.mk 1 1 1 1 1 1))
          "alice" 1 (TxRand.mk 1 1 1 1 1 1), none) :=
    apply_payment_ok _ rfl "alice" 1 (TxRand.mk 1 1 1 1 1 1) (Or.inl rfl)
      (by decide) (by decide)
  have happ : apply_payments (opened_channel 2 3 "chan-1" 1 2
        (TxRand.mk 1 1 1 1 1 1)) [("alice", 1, TxRand.mk 1 1 1 1 1 1)]
      = (paid_channel (opened_channel 2 3 "chan-1" 1 2 (TxRand.mk 1 1 1 1 1 1))
          "alice" 1 (TxRand.mk 1 1 1 1 1 1), none) := by
    rw [apply_payments_cons _ _ _ _ _ _ happ1, apply_payments_nil]
  exact claimC1_balance_conservation 2 3 "chan-1" 1 2 (TxRand.mk 1 1 1 1 1 1)
    [("alice", 1, TxRand.mk 1 1 1 1 1 1)] _ _ (by decide) (by decide) hopen happ

/-- C5 — Proof completeness and unreachable self-checks: every proof
produced by `prove_opening` over a commitment from `commit` is accepted by
`verify_opening_proof` under the same context, for every message, randomness,
context, and nonces in `[1, q-1]`; consequently `Channel.open` never raises
the internal self-check `ChannelError` (its only failure is
`InvalidAmount`), and `_set_balances` on a default-parameter channel never
raises it. -/
theorem claimC5_proof_completeness :
    (∀ (message : Int) (r : Nat) (context : List Nat) (w_m w_r : Nat),
      1 ≤ w_m → w_m ≤ qVal - 1 → 1 ≤ w_r → w_r ≤ qVal - 1 →
      verify_opening_proof default_parameters
        (commit default_parameters message r).1
        (prove_opening default_parameters message r
          (commit default_parameters message r).1 context w_m w_r) context
        = true) ∧
    (∀ (dA dB : Int) (cid : String) (skA skB : Nat) (rnd : TxRand),
      openChannel dA dB default_parameters cid skA skB rnd
        ≠ Except.error ChannelError.internalProof) ∧
    (∀ (ch : Channel) (bA bB : Int) (rnd : TxRand),
      ch.params = default_parameters →
      (set_balances ch bA bB rnd).2 ≠ some ChannelError.internalProof) := by
  refine ⟨fun m r ctx wm wr _ _ _ _ => proof_completeness m r ctx wm wr, ?_, ?_⟩
  · intro dA dB cid skA skB rnd
    by_cases hneg : dA < 0 ∨ dB < 0
    · intro hc
      simp only [openChannel, if_pos hneg] at hc
      injection hc with he
      exact ChannelError.noConfusion he
    · push_neg at hneg
      rw [open_ok dA dB cid skA skB rnd hneg.1 hneg.2]
      intro hc
      exact Except.noConfusion hc
  · intro ch bA bB rnd hp
    rw [set_balances_ok ch hp]
    intro hc
    exact Option.noConfusion hc

/-- Witness for C5 at a concrete input: nonces 1 lie in `[1, q-1]` and the
proof for message 0 with randomness 1 verifies. -/
theorem claimC5_witness :
    ((1 ≤ 1 ∧ (1 : Nat) ≤ qVal - 1) ∧
      verify_opening_proof default_parameters
        (commit default_parameters 0 1).1
        (prove_opening default_parameters 0 1
          (commit default_parameters 0 1).1 [] 1 1) [] = true) :=
  ⟨⟨Nat.le_refl 1, by decide⟩,
    claimC5_proof_completeness.1 0 1 [] 1 1 (Nat.le_refl 1) (by decide)
      (Nat.le_refl 1) (by decide)⟩

/-- C6 — Exact-sequence settlement: whenever a record exists for the
payload's channel and the payload's sequence differs from the record's
stored sequence, `cooperative_close` fails with `InvalidSettlement` and
leaves the ledger (in particular the record's `closed` flag) unchanged. -/
theorem claimC6_exact_sequence (L : SimulatedLedger) (pl : ClosePayload)
    (rec : LedgerRecord)
    (hrec : getRecord L.records pl.channel_id = some rec)
    (hseq : pl.sequence ≠ (rec.sequence : Int)) :
    cooperative_close L pl = (L, Except.error LedgerError.invalidSettlement) := by
  simp only [cooperative_close, hrec]
  by_cases hc : rec.closed = true
  · rw [if_pos hc]
  · rw [if_neg hc, if_pos hseq]

/-- Witness for C6 at a concrete input: a payload carrying sequence 0
against a record at sequence 1 is rejected and the ledger is unchanged. -/
theorem claimC6_witness :
    getRecord [("c", LedgerRecord.mk "c" 1 1 1 1 1 false)] "c"
        = some (LedgerRecord.mk "c" 1 1 1 1 1 false) ∧
    ((0 : Int) ≠ ((1 : Nat) : Int)) ∧
    cooperative_close (SimulatedLedger.mk default_parameters
        [("c", LedgerRecord.mk "c" 1 1 1 1 1 false)])
      (ClosePayload.mk "c" 0 0 0 [] [] [] [] (ProofHex.mk [] [] [])
        (ProofHex.mk [] [] []) none none)
      = (SimulatedLedger.mk default_parameters
          [("c", LedgerRecord.mk "c" 1 1 1 1 1 false)],
        Except.error LedgerError.invalidSettlement) :=
  ⟨rfl, by decide,
    claimC6_exact_sequence
      (SimulatedLedger.mk default_parameters
        [("c", LedgerRecord.mk "c" 1 1 1 1 1 false)])
      (ClosePayload.mk "c" 0 0 0 [] [] [] [] (ProofHex.mk [] [] [])
        (ProofHex.mk [] [] []) none none)
      (LedgerRecord.mk "c" 1 1 1 1 1 false) rfl (by decide)⟩

/-- `verify` silently reduces an out-of-range commitment value modulo `p`
instead of rejecting it. -/
theorem verify_add_p (c : Nat) (m : Int) (o : Nat) :
    verify default_parameters (c + default_parameters.p) m o
      = verify default_parameters c m o := by
  simp only [verify]
  rw [Nat.add_mod_right]

/-- C9 counterexample -- the claim "every commitment-scheme operation fails
with an InvalidParameter condition when its inputs are outside the expected
integer domain" is false: `verify` accepts the malformed commitment value
`c + p` (outside the expected domain `[0, p)`), silently reducing it mod `p`
and returning an ordinary boolean result (`true`) instead of failing.  No
operation in `pedersen.py` raises any validation error. -/
theorem claimC9_counterexample :
    default_parameters.p
      ≤ (commit default_parameters 0 1).1 + default_parameters.p /\
    verify default_parameters
      ((commit default_parameters 0 1).1 + default_parameters.p) 0 1
      = true :=
  ⟨Nat.le_add_left _ _, by rw [verify_add_p, verify_commit]⟩

/-- C9 amended — the commitment-scheme operations perform no input
validation and never raise an `InvalidParameter` condition: out-of-domain
integer inputs are silently reduced (`verify` reduces commitment values
modulo `p`; `commit` reduces messages modulo `q`) and an ordinary result is
computed. -/
theorem claimC9_amended :
    (∀ (c : Nat) (m : Int) (o : Nat),
      verify default_parameters (c + default_parameters.p) m o
        = verify default_parameters c m o) ∧
    (∀ (m : Int) (r : Nat),
      commit default_parameters (m + ((default_parameters.q : Nat) : Int)) r
        = commit default_parameters m r) := by
  constructor
  · intro c m o
    simp only [verify]
    rw [Nat.add_mod_right]
  · intro m r
    simp only [commit]
    have he : m + ((default_parameters.q : Nat) : Int)
        = m + ((default_parameters.q : Nat) : Int) * 1 := by ring
    rw [he, Int.add_mul_emod_self_left]

set_option exponentiation.threshold 2000

/-- C10— the group constant: `default_parameters` is deterministic with
`q = (p-1)/2`, `g = 2` and `h = g^hashToScalar(domain) mod p` as the spec
states, but `p` is a 768-bit number (the RFC 2409 Oakley Group 1 modulus),
not a member of the claimed 2048-bit class (RFC 3526 Group 14), despite the
source comment saying otherwise. -/
theorem claimC10_group_parameters :
    default_parameters.p = pHex ∧
    2 ^ 767 ≤ pHex ∧ pHex < 2 ^ 768 ∧
    default_parameters.q = (pHex - 1) / 2 ∧
    default_parameters.g = 2 ∧
    default_parameters.h
      = powMod default_parameters.g
          (hashToScalar (encodeStr ("pedersen-h-generator"))
            default_parameters.q)
          default_parameters.p :=
  ⟨rfl, by decide, by decide, rfl, rfl, by rw [dp_g, dp_p, dp_q]; exact dp_h⟩

/-! ## The C4 settlement scenario: deposits (200, 50), one payment of 25
from alice, both co-signed, then cooperative close.

The intermediate channel states, ledger records and payload are spelled out
as explicit values parametric in the channel id, the two signing keys and
the random scalars drawn during open and payment. -/

theorem getRecord_cons_self (c : String) (r : LedgerRecord)
    (rest : List (String × LedgerRecord)) :
    getRecord ((c, r) :: rest) c = some r := by
  simp [getRecord]

theorem setRecord_cons_self (c : String) (r r2 : LedgerRecord)
    (rest : List (String × LedgerRecord)) :
    setRecord ((c, r) :: rest) c r2 = (c, r2) :: rest := by
  simp [setRecord]

theorem txOpen_eq (cid : String) (skA skB : Nat) (rnd0 : TxRand) :
    opened_channel 200 50 cid skA skB rnd0 = txChannelZero cid skA skB rnd0 :=
  rfl

theorem txPaid_eq (cid : String) (skA skB : Nat) (rnd0 rnd1 : TxRand) :
    paid_channel (txChannelZero cid skA skB rnd0) "alice" 25 rnd1
      = txChannelOne cid skA skB rnd0 rnd1 := rfl

theorem txSignA_eq (cid : String) (skA skB : Nat) (rnd0 rnd1 : TxRand) :
    sign_state (txChannelOne cid skA skB rnd0 rnd1) "alice"
      = (txChannelTwo cid skA skB rnd0 rnd1, none) := rfl

theorem txSignB_eq (cid : String) (skA skB : Nat) (rnd0 rnd1 : TxRand) :
    sign_state (txChannelTwo cid skA skB rnd0 rnd1) "bob"
      = (txChannelThree cid skA skB rnd0 rnd1, none) := rfl

theorem txUpdate_eq (cid : String) (skA skB : Nat) (rnd0 rnd1 : TxRand) :
    update_state
      (register_channel (SimulatedLedger.mk default_parameters [])
        (txChannelZero cid skA skB rnd0))
      (txChannelOne cid skA skB rnd0 rnd1)
      = (txLedgerOne cid skA skB rnd1, none) := by
  simp only [register_channel, update_state, setRecord, getRecord_cons_self,
    setRecord_cons_self, txChannelZero, txChannelOne, txStateZero, txStateOne,
    txLedgerOne, txRecordOne]
  norm_num

/-- The fully-checked success path of `cooperative_close`, stated over a
symbolic ledger, payload and record. -/
theorem cooperative_close_ok (L : SimulatedLedger) (pl : ClosePayload)
    (rec : LedgerRecord) (sigAh sigBh : List Nat)
    (hrec : getRecord L.records pl.channel_id = some rec)
    (hclosed : rec.closed = false)
    (hseq : pl.sequence = (rec.sequence : Int))
    (hcomA : pl.comA = serialize_commitment rec.comA)
    (hcomB : pl.comB = serialize_commitment rec.comB)
    (hsigA : pl.sigA = some sigAh)
    (hsigB : pl.sigB = some sigBh)
    (hvsA : verify_signature rec.vkA
      (compute_state_digest pl.channel_id rec.sequence rec.comA rec.comB)
      (hexCharsToBytes sigAh) = true)
    (hvsB : verify_signature rec.vkB
      (compute_state_digest pl.channel_id rec.sequence rec.comA rec.comB)
      (hexCharsToBytes sigBh) = true)
    (hopA : verify L.params rec.comA pl.balA
      (deserialize_opening pl.opA) = true)
    (hopB : verify L.params rec.comB pl.balB
      (deserialize_opening pl.opB) = true)
    (hprA : verify_opening_proof L.params rec.comA (deserialize_proof pl.prA)
      (proof_context pl.channel_id rec.sequence "alice") = true)
    (hprB : verify_opening_proof L.params rec.comB (deserialize_proof pl.prB)
      (proof_context pl.channel_id rec.sequence "bob") = true) :
    cooperative_close L pl
      = ({ L with records := setRecord L.records pl.channel_id { rec with closed := true } },
        Except.ok (CloseResult.mk pl.channel_id rec.sequence pl.balA pl.balB
          true)) := by
  simp only [cooperative_close, hrec, hclosed, hseq, hcomA, hcomB, hsigA,
    hsigB, hvsA, hvsB, hopA, hopB, hprA, hprB, ne_eq, if_true, if_false]
  norm_num

/-- The already-closed rejection path of `cooperative_close`. -/
theorem cooperative_close_closed (L : SimulatedLedger) (pl : ClosePayload)
    (rec : LedgerRecord)
    (hrec : getRecord L.records pl.channel_id = some rec)
    (hclosed : rec.closed = true) :
    cooperative_close L pl
      = (L, Except.error LedgerError.invalidSettlement) := by
  simp only [cooperative_close, hrec, hclosed, if_true]

theorem txPayload_cid (cid : String) (skA skB : Nat) (rnd0 rnd1 : TxRand) :
    (closing_payload (txChannelThree cid skA skB rnd0 rnd1)).channel_id
      = cid := rfl

/-! Projection lemmas used to settle the close payload checks by pure
rewriting (each is a one-step unfolding, proved by `rfl`). -/

theorem cp_channel_id (ch : Channel) :
    (closing_payload ch).channel_id = ch.channel_id := rfl

theorem cp_sequence (ch : Channel) :
    (closing_payload ch).sequence = (ch.state.sequence : Int) := rfl

theorem cp_balA (ch : Channel) : (closing_payload ch).balA = ch.state.balA :=
  rfl

theorem cp_balB (ch : Channel) : (closing_payload ch).balB = ch.state.balB :=
  rfl

theorem cp_comA (ch : Channel) :
    (closing_payload ch).comA = serialize_commitment ch.state.comA := rfl

theorem cp_comB (ch : Channel) :
    (closing_payload ch).comB = serialize_commitment ch.state.comB := rfl

theorem cp_opA (ch : Channel) :
    (closing_payload ch).opA = serialize_opening ch.state.opA := rfl

theorem cp_opB (ch : Channel) :
    (closing_payload ch).opB = serialize_opening ch.state.opB := rfl

theorem cp_prA (ch : Channel) :
    (closing_payload ch).prA = serialize_proof ch.state.prA := rfl

theorem cp_prB (ch : Channel) :
    (closing_payload ch).prB = serialize_proof ch.state.prB := rfl

theorem cp_sigA (ch : Channel) :
    (closing_payload ch).sigA = ch.state.sigA.map bytesToHexChars := rfl

theorem cp_sigB (ch : Channel) :
    (closing_payload ch).sigB = ch.state.sigB.map bytesToHexChars := rfl

theorem t3_channel_id (cid : String) (skA skB : Nat) (rnd0 rnd1 : TxRand) :
    (txChannelThree cid skA skB rnd0 rnd1).channel_id = cid := rfl

theorem t3_sequence (cid : String) (skA skB : Nat) (rnd0 rnd1 : TxRand) :
    (txChannelThree cid skA skB rnd0 rnd1).state.sequence = 1 := rfl

theorem t3_balA (cid : String) (skA skB : Nat) (rnd0 rnd1 : TxRand) :
    (txChannelThree cid skA skB rnd0 rnd1).state.balA = 175 := rfl

theorem t3_balB (cid : String) (skA skB : Nat) (rnd0 rnd1 : TxRand) :
    (txChannelThree cid skA skB rnd0 rnd1).state.balB = 75 := rfl

theorem t3_comA (cid : String) (skA skB : Nat) (rnd0 rnd1 : TxRand) :
    (txChannelThree cid skA skB rnd0 rnd1).state.comA
      = (commit default_parameters 175 rnd1.rA).1 := rfl

theorem t3_comB (cid : String) (skA skB : Nat) (rnd0 rnd1 : TxRand) :
    (txChannelThree cid skA skB rnd0 rnd1).state.comB
      = (commit default_parameters 75 rnd1.rB).1 := rfl

theorem t3_opA (cid : String) (skA skB : Nat) (rnd0 rnd1 : TxRand) :
    (txChannelThree cid skA skB rnd0 rnd1).state.opA = rnd1.rA := rfl

theorem t3_opB (cid : String) (skA skB : Nat) (rnd0 rnd1 : TxRand) :
    (txChannelThree cid skA skB rnd0 rnd1).state.opB = rnd1.rB := rfl

theorem t3_prA (cid : String) (skA skB : Nat) (rnd0 rnd1 : TxRand) :
    (txChannelThree cid skA skB rnd0 rnd1).state.prA
      = prove_opening default_parameters 175 rnd1.rA
          (commit default_parameters 175 rnd1.rA).1
          (proof_context cid 1 "alice") rnd1.wmA rnd1.wrA := rfl

theorem t3_prB (cid : String) (skA skB : Nat) (rnd0 rnd1 : TxRand) :
    (txChannelThree cid skA skB rnd0 rnd1).state.prB
      = prove_opening default_parameters 75 rnd1.rB
          (commit default_parameters 75 rnd1.rB).1
          (proof_context cid 1 "bob") rnd1.wmB rnd1.wrB := rfl

theorem t3_sigA (cid : String) (skA skB : Nat) (rnd0 rnd1 : TxRand) :
    (txChannelThree cid skA skB rnd0 rnd1).state.sigA
      = some (sign_message skA (txDigest cid rnd1)) := rfl

theorem t3_sigB (cid : String) (skA skB : Nat) (rnd0 rnd1 : TxRand) :
    (txChannelThree cid skA skB rnd0 rnd1).state.sigB
      = some (sign_message skB (txDigest cid rnd1)) := rfl

theorem r1_sequence (cid : String) (skA skB : Nat) (rnd1 : TxRand) :
    (txRecordOne cid skA skB rnd1).sequence = 1 := rfl

theorem r1_comA (cid : String) (skA skB : Nat) (rnd1 : TxRand) :
    (txRecordOne cid skA skB rnd1).comA
      = (commit default_parameters 175 rnd1.rA).1 := rfl

theorem r1_comB (cid : String) (skA skB : Nat) (rnd1 : TxRand) :
    (txRecordOne cid skA skB rnd1).comB
      = (commit default_parameters 75 rnd1.rB).1 := rfl

theorem r1_vkA (cid : String) (skA skB : Nat) (rnd1 : TxRand) :
    (txRecordOne cid skA skB rnd1).vkA = vkOf skA := rfl

theorem r1_vkB (cid : String) (skA skB : Nat) (rnd1 : TxRand) :
    (txRecordOne cid skA skB rnd1).vkB = vkOf skB := rfl

theorem l1_params (cid : String) (skA skB : Nat) (rnd1 : TxRand) :
    (txLedgerOne cid skA skB rnd1).params = default_parameters := rfl

theorem l1_records (cid : String) (skA skB : Nat) (rnd1 : TxRand) :
    (txLedgerOne cid skA skB rnd1).records
      = [(cid, txRecordOne cid skA skB rnd1)] := rfl

theorem l2_eq (cid : String) (skA skB : Nat) (rnd1 : TxRand) :
    txLedgerTwo cid skA skB rnd1
      = SimulatedLedger.mk default_parameters
          [(cid, { txRecordOne cid skA skB rnd1 with closed := true })] := rfl

theorem dig_eq (cid : String) (rnd1 : TxRand) :
    compute_state_digest cid 1 (commit default_parameters 175 rnd1.rA).1
        (commit default_parameters 75 rnd1.rB).1
      = txDigest cid rnd1 := rfl

theorem txClose_eq (cid : String) (skA skB : Nat) (rnd0 rnd1 : TxRand) :
    cooperative_close (txLedgerOne cid skA skB rnd1)
      (closing_payload (txChannelThree cid skA skB rnd0 rnd1))
      = (txLedgerTwo cid skA skB rnd1,
        Except.ok (CloseResult.mk cid 1 175 75 true)) := by
  have hrec : getRecord (txLedgerOne cid skA skB rnd1).records
      (closing_payload (txChannelThree cid skA skB rnd0 rnd1)).channel_id
      = some (txRecordOne cid skA skB rnd1) := by
    rw [cp_channel_id, t3_channel_id, l1_records]
    exact getRecord_cons_self cid _ []
  have hseq : (closing_payload (txChannelThree cid skA skB rnd0 rnd1)).sequence
      = ((txRecordOne cid skA skB rnd1).sequence : Int) := by
    rw [cp_sequence, t3_sequence, r1_sequence]
  have hcomA : (closing_payload (txChannelThree cid skA skB rnd0 rnd1)).comA
      = serialize_commitment (txRecordOne cid skA skB rnd1).comA := by
    rw [cp_comA, t3_comA, r1_comA]
  have hcomB : (closing_payload (txChannelThree cid skA skB rnd0 rnd1)).comB
      = serialize_commitment (txRecordOne cid skA skB rnd1).comB := by
    rw [cp_comB, t3_comB, r1_comB]
  have hsigA : (closing_payload (txChannelThree cid skA skB rnd0 rnd1)).sigA
      = some (bytesToHexChars (sign_message skA (txDigest cid rnd1))) := by
    rw [cp_sigA, t3_sigA]
    rfl
  have hsigB : (closing_payload (txChannelThree cid skA skB rnd0 rnd1)).sigB
      = some (bytesToHexChars (sign_message skB (txDigest cid rnd1))) := by
    rw [cp_sigB, t3_sigB]
    rfl
  have hvsA : verify_signature (txRecordOne cid skA skB rnd1).vkA
      (compute_state_digest
        (closing_payload (txChannelThree cid skA skB rnd0 rnd1)).channel_id
        (txRecordOne cid skA skB rnd1).sequence
        (txRecordOne cid skA skB rnd1).comA
        (txRecordOne cid skA skB rnd1).comB)
      (hexCharsToBytes
        (bytesToHexChars (sign_message skA (txDigest cid rnd1)))) = true := by
    rw [cp_channel_id, t3_channel_id, r1_vkA, r1_sequence, r1_comA, r1_comB,
      dig_eq, hexCharsToBytes_bytesToHexChars]
    exact verify_sign skA (txDigest cid rnd1)
  have hvsB : verify_signature (txRecordOne cid skA skB rnd1).vkB
      (compute_state_digest
        (closing_payload (txChannelThree cid skA skB rnd0 rnd1)).channel_id
        (txRecordOne cid skA skB rnd1).sequence
        (txRecordOne cid skA skB rnd1).comA
        (txRecordOne cid skA skB rnd1).comB)
      (hexCharsToBytes
        (bytesToHexChars (sign_message skB (txDigest cid rnd1)))) = true := by
    rw [cp_channel_id, t3_channel_id, r1_vkB, r1_sequence, r1_comA, r1_comB,
      dig_eq, hexCharsToBytes_bytesToHexChars]
    exact verify_sign skB (txDigest cid rnd1)
  have hopA : verify (txLedgerOne cid skA skB rnd1).params
      (txRecordOne cid skA skB rnd1).comA
      (closing_payload (txChannelThree cid skA skB rnd0 rnd1)).balA
      (deserialize_opening
        (closing_payload (txChannelThree cid skA skB rnd0 rnd1)).opA)
      = true := by
    rw [l1_params, r1_comA, cp_balA, t3_balA, cp_opA, t3_opA,
      deserialize_serialize_opening]
    exact verify_commit 175 rnd1.rA
  have hopB : verify (txLedgerOne cid skA skB rnd1).params
      (txRecordOne cid skA skB rnd1).comB
      (closing_payload (txChannelThree cid skA skB rnd0 rnd1)).balB
      (deserialize_opening
        (closing_payload (txChannelThree cid skA skB rnd0 rnd1)).opB)
      = true := by
    rw [l1_params, r1_comB, cp_balB, t3_balB, cp_opB, t3_opB,
      deserialize_serialize_opening]
    exact verify_commit 75 rnd1.rB
  have hprA : verify_opening_proof (txLedgerOne cid skA skB rnd1).params
      (txRecordOne cid skA skB rnd1).comA
      (deserialize_proof
        (closing_payload (txChannelThree cid skA skB rnd0 rnd1)).prA)
      (proof_context
        (closing_payload (txChannelThree cid skA skB rnd0 rnd1)).channel_id
        (txRecordOne cid skA skB rnd1).sequence "alice") = true := by
    rw [l1_params, r1_comA, cp_prA, t3_prA, cp_channel_id, t3_channel_id,
      r1_sequence, deserialize_serialize_proof]
    exact proof_completeness 175 rnd1.rA (proof_context cid 1 "alice")
      rnd1.wmA rnd1.wrA
  have hprB : verify_opening_proof (txLedgerOne cid skA skB rnd1).params
      (txRecordOne cid skA skB rnd1).comB
      (deserialize_proof
        (closing_payload (txChannelThree cid skA skB rnd0 rnd1)).prB)
      (proof_context
        (closing_payload (txChannelThree cid skA skB rnd0 rnd1)).channel_id
        (txRecordOne cid skA skB rnd1).sequence "bob") = true := by
    rw [l1_params, r1_comB, cp_prB, t3_prB, cp_channel_id, t3_channel_id,
      r1_sequence, deserialize_serialize_proof]
    exact proof_completeness 75 rnd1.rB (proof_context cid 1 "bob")
      rnd1.wmB rnd1.wrB
  rw [cooperative_close_ok (txLedgerOne cid skA skB rnd1)
    (closing_payload (txChannelThree cid skA skB rnd0 rnd1))
    (txRecordOne cid skA skB rnd1)
    (bytesToHexChars (sign_message skA (txDigest cid rnd1)))
    (bytesToHexChars (sign_message skB (txDigest cid rnd1)))
    hrec rfl hseq hcomA hcomB hsigA hsigB hvsA hvsB hopA hopB hprA hprB]
  rw [l2_eq, cp_channel_id, t3_channel_id, r1_sequence, cp_balA, t3_balA,
    cp_balB, t3_balB, l1_records, setRecord_cons_self, l1_params]
  rfl

theorem txCloseAgain_eq (cid : String) (skA skB : Nat) (rnd0 rnd1 : TxRand) :
    cooperative_close (txLedgerTwo cid skA skB rnd1)
      (closing_payload (txChannelThree cid skA skB rnd0 rnd1))
      = (txLedgerTwo cid skA skB rnd1,
        Except.error LedgerError.invalidSettlement) :=
  cooperative_close_closed (txLedgerTwo cid skA skB rnd1)
    (closing_payload (txChannelThree cid skA skB rnd0 rnd1))
    { txRecordOne cid skA skB rnd1 with closed := true }
    (by rw [txPayload_cid]; exact getRecord_cons_self cid _ []) rfl

/-- C4 — Settlement determinism and non-idempotent close: from deposits
(200, 50), one payment of 25 from alice, validator updated to sequence 1,
both participants signing, `cooperative_close` settles balances
{alice: 175, bob: 75} at sequence 1 with `verified = true` — for every
channel id, every pair of signing keys and all random scalars drawn during
open and payment — and a second `cooperative_close` for the same channel
fails with `InvalidSettlement` because the record is already closed. -/
theorem claimC4_settlement_determinism (cid : String) (skA skB : Nat)
    (rnd0 rnd1 : TxRand) :
    ∃ (ch0 ch1 ch2 ch3 : Channel) (L1 L2 : SimulatedLedger)
      (res : CloseResult),
      openChannel 200 50 default_parameters cid skA skB rnd0
        = Except.ok ch0 ∧
      apply_payment ch0 "alice" 25 rnd1 = (ch1, none) ∧
      update_state
        (register_channel (SimulatedLedger.mk default_parameters []) ch0) ch1
        = (L1, none) ∧
      sign_state ch1 "alice" = (ch2, none) ∧
      sign_state ch2 "bob" = (ch3, none) ∧
      cooperative_close L1 (closing_payload ch3) = (L2, Except.ok res) ∧
      res.balA = 175 ∧ res.balB = 75 ∧ res.sequence = 1 ∧
      res.verified = true ∧
      cooperative_close L2 (closing_payload ch3)
        = (L2, Except.error LedgerError.invalidSettlement) := by
  refine ⟨txChannelZero cid skA skB rnd0, txChannelOne cid skA skB rnd0 rnd1,
    txChannelTwo cid skA skB rnd0 rnd1, txChannelThree cid skA skB rnd0 rnd1,
    txLedgerOne cid skA skB rnd1, txLedgerTwo cid skA skB rnd1,
    CloseResult.mk cid 1 175 75 true, ?_, ?_, ?_, ?_, ?_, ?_, rfl, rfl, rfl,
    rfl, ?_⟩
  · rw [open_ok 200 50 cid skA skB rnd0 (by decide) (by decide), txOpen_eq]
  · rw [apply_payment_ok (txChannelZero cid skA skB rnd0) rfl "alice" 25 rnd1
      (Or.inl rfl) (by decide)
      (by rw [show balOf (txChannelZero cid skA skB rnd0).state "alice" = 200
            from rfl]
          decide),
      txPaid_eq]
  · exact txUpdate_eq cid skA skB rnd0 rnd1
  · exact txSignA_eq cid skA skB rnd0 rnd1
  · exact txSignB_eq cid skA skB rnd0 rnd1
  · exact txClose_eq cid skA skB rnd0 rnd1
  · exact txCloseAgain_eq cid skA skB rnd0 rnd1

end Micropay
